import Mathlib

/-!
A shallow embedding of `streamlit_app.py` (PurpleAir sensor status checker).

Modelling choices:
* Python strings are modelled as lists of unicode code points (`PyStr`);
  `str.startswith` becomes `List.isPrefixOf`.
* Timestamps and ages are modelled as integers (whole seconds); the value of
  the internal `datetime.now(timezone.utc).timestamp()` call at line 59 is an
  explicit parameter `now` of the embedded `get_sensor_data`, because the
  Python function reads the clock itself rather than receiving it.
* The outcome of the HTTP GET for one sensor (lines 53-55) is a `FetchResult`:
  a parsed `sensor` object on success, the status code of an `HTTPError`, or a
  transport-level `RequestException` with no response.
* A pandas row built from the per-sensor dict is a `SensorRecord`; absent dict
  keys are `none`. `st.session_state` is an `AppState`.
-/

/-- Python strings, modelled as lists of unicode code points. -/
abbrev PyStr := List Char

/-- Decimal rendering of an integer, as a Python f-string interpolates it. -/
def intStr (i : Int) : PyStr := (toString i).data

/-- Decimal rendering of a natural number, as a Python f-string interpolates it. -/
def natStr (n : Nat) : PyStr := (toString n).data

/-- The hardcoded sensor index list (lines 27-32). -/
def SENSOR_INDICES : List Int :=
  [270898, 279253, 279251, 133435, 155503, 155501, 155521, 155533,
   155537, 155567, 155569, 155591, 155595, 155597, 155601, 155607,
   155605, 155613, 155629, 155639, 155673, 155679, 155691, 162991,
   163031, 163169]

/-- Line 40: staleness threshold in seconds (10 minutes). -/
def STALE_THRESHOLD_SECONDS : Int := 600

/-- Line 41: low-confidence threshold in percent. -/
def LOW_CONFIDENCE_THRESHOLD : Int := 75

/-- The `STATUS_COLORS` dict (lines 42-46), as a lookup function. The program
only ever looks it up at the three literal keys `online`, `low_confidence`
and `offline`; the final branch is the `offline` entry. -/
def STATUS_COLORS (key : PyStr) : List Nat :=
  if key = "online".data then [0, 255, 0, 160]
  else if key = "low_confidence".data then [255, 255, 0, 160]
  else [255, 0, 0, 160]

/-- The fields of the `sensor` object parsed from a successful API response
(line 55). Every field may be absent from the response body. Fields that the
program never branches on (name, model, rssi, uptime, pm2.5, temperature) are
carried opaquely; two representatives are kept here. -/
structure SensorJson where
  name : Option PyStr
  model : Option PyStr
  last_seen : Option Int
  confidence : Option Int
  rssi : Option Int
  latitude : Option ℚ
  longitude : Option ℚ
deriving DecidableEq, Repr

/-- The outcome of the HTTP GET for one sensor (lines 53-55 and the two
`except` clauses): a parsed body, an `HTTPError` carrying the response status
code, or a transport-level failure with no response. -/
inductive FetchResult where
  | success (sensor : SensorJson)
  | httpError (code : Nat)
  | requestError
deriving DecidableEq, Repr

/-- One row of the refresh result set: the dict returned by
`get_sensor_data`, with `none` for keys the dict does not carry. -/
structure SensorRecord where
  sensor_index : Int
  status : PyStr
  color : List Nat
  name : Option PyStr
  model : Option PyStr
  last_seen : Option Int
  confidence : Option Int
  rssi : Option Int
  latitude : Option ℚ
  longitude : Option ℚ
deriving DecidableEq, Repr

/-- The f-string of line 64: `❌ Offline ({hrs} hr ago)`. -/
def offlineLabel (hrs : Int) : PyStr :=
  "❌ Offline (".data ++ intStr hrs ++ " hr ago)".data

/-- The f-string of line 67: `⚠️ Low Confidence ({conf}%)`. -/
def lowConfidenceLabel (conf : Int) : PyStr :=
  "⚠️ Low Confidence (".data ++ intStr conf ++ "%)".data

/-- The literal of line 70: `✅ Online`. -/
def onlineLabel : PyStr := "✅ Online".data

/-- The message built at lines 77-79: `❌ HTTP {code}`, then a 403 suffix and
a 404 suffix appended by two successive (non-exclusive) `if` statements. -/
def httpErrorLabel (code : Nat) : PyStr :=
  let msg := "❌ HTTP ".data ++ natStr code
  let msg := if code = 403 then msg ++ " (Invalid API Key?)".data else msg
  let msg := if code = 404 then msg ++ " (Not Found)".data else msg
  msg

/-- The literal of line 83: `❌ Request Error`. -/
def requestErrorLabel : PyStr := "❌ Request Error".data

/-- The embedding of `get_sensor_data` (lines 48-84). `now` is the value of
the internal `datetime.now(timezone.utc).timestamp()` call at line 59 (the
Python function takes only `api_key` and `sensor_index`; it samples the clock
itself). `result` is the outcome of the HTTP GET. Missing `last_seen` and
`confidence` default to 0 (lines 58, 60); an `HTTPError` or a
`RequestException` yields a placeholder dict (lines 75-84). -/
def get_sensor_data (now : Int) (sensor_index : Int) (result : FetchResult) :
    SensorRecord :=
  match result with
  | .success data =>
      let last_seen := data.last_seen.getD 0
      let age_sec := now - last_seen
      let conf := data.confidence.getD 0
      let sc : PyStr × List Nat :=
        if age_sec > STALE_THRESHOLD_SECONDS then
          (offlineLabel (age_sec.fdiv 3600), STATUS_COLORS ("offline".data))
        else if conf < LOW_CONFIDENCE_THRESHOLD then
          (lowConfidenceLabel conf, STATUS_COLORS ("low_confidence".data))
        else
          (onlineLabel, STATUS_COLORS ("online".data))
      { sensor_index := sensor_index, status := sc.1, color := sc.2,
        name := data.name, model := data.model, last_seen := data.last_seen,
        confidence := data.confidence, rssi := data.rssi,
        latitude := data.latitude, longitude := data.longitude }
  | .httpError code =>
      { sensor_index := sensor_index, status := httpErrorLabel code,
        color := STATUS_COLORS ("offline".data), name := some ("N/A".data),
        model := none, last_seen := none, confidence := none, rssi := none,
        latitude := none, longitude := none }
  | .requestError =>
      { sensor_index := sensor_index, status := requestErrorLabel,
        color := STATUS_COLORS ("offline".data), name := some ("N/A".data),
        model := none, last_seen := none, confidence := none, rssi := none,
        latitude := none, longitude := none }

/-- The sort key of lines 133-137: red (❌) is 0, yellow (⚠️) is 1,
green (✅) is 2, anything else 3. -/
def status_priority (s : PyStr) : Nat :=
  if List.isPrefixOf ("❌".data) s then 0
  else if List.isPrefixOf ("⚠️".data) s then 1
  else if List.isPrefixOf ("✅".data) s then 2
  else 3

/-- Lines 139-142: sort the rows by `status_priority` of their status. -/
def sortByPriority (rs : List SensorRecord) : List SensorRecord :=
  rs.mergeSort (fun a b => status_priority a.status ≤ status_priority b.status)

/-- The pydeck camera state (latitude, longitude, zoom, pitch). -/
structure ViewState where
  latitude : ℚ
  longitude : ℚ
  zoom : Int
  pitch : Int
deriving DecidableEq, Repr

/-- Lines 87-92: the fixed default camera. -/
def DEFAULT_VIEW : ViewState :=
  { latitude := 37.9577, longitude := -121.2908, zoom := 10, pitch := 0 }

/-- The session state (lines 95-97): the table result set `df`, the map
result set `df_map`, and the camera `view_state`. -/
structure AppState where
  df : List SensorRecord
  df_map : List SensorRecord
  view_state : ViewState
deriving DecidableEq, Repr

/-- The `do_refresh` callback (lines 100-111): fetch every configured sensor
(`fetch` gives the per-sensor outcome, `now` the clock sample used inside
`get_sensor_data`), store the records as `df`, and store the rows that have
both coordinates (`dropna` on latitude and longitude, line 110) as `df_map`.
The camera is untouched. -/
def do_refresh (now : Int) (fetch : Int → FetchResult) (s : AppState) :
    AppState :=
  let records := SENSOR_INDICES.map (fun idx => get_sensor_data now idx (fetch idx))
  { df := records,
    df_map := records.filter (fun r => r.latitude.isSome && r.longitude.isSome),
    view_state := s.view_state }

/-- The `reset_view` callback (lines 113-115): restore the default camera. -/
def reset_view (s : AppState) : AppState :=
  { df := s.df, df_map := s.df_map, view_state := DEFAULT_VIEW }

/-- Modelled from the spec: the health-category-to-color map demanded by the
spec (offline or fetch-error category 0 is red, low-confidence category 1 is
yellow, online category 2 is green), written from the words of the spec to be
compared with the colors the code assigns. -/
def spec_colorOfCategory (category : Nat) : List Nat :=
  if category = 0 then [255, 0, 0, 160]
  else if category = 1 then [255, 255, 0, 160]
  else [0, 255, 0, 160]

/-- A concrete fresh, confident sensor body (for concrete evaluations). -/
def sampleFresh : SensorJson :=
  { name := some ("Alpha".data), model := some ("PA-II".data),
    last_seen := some 999999900, confidence := some 80, rssi := some (-60),
    latitude := some 37.96, longitude := some (-121.29) }

/-- The same reading as `sampleFresh` except for the opaque and location
fields (for the noninterference instance). -/
def sampleFreshRenamed : SensorJson :=
  { name := some ("Beta".data), model := none,
    last_seen := some 999999900, confidence := some 80, rssi := none,
    latitude := none, longitude := none }

/-- A body whose reading is exactly 600 seconds old at time 1000000600. -/
def sampleBoundary : SensorJson :=
  { name := none, model := none, last_seen := some 1000000000,
    confidence := some 80, rssi := none, latitude := none, longitude := none }

/-- A fresh body with confidence 74 (just under the threshold). -/
def sampleLowConf : SensorJson :=
  { name := none, model := none, last_seen := some 1000000000,
    confidence := some 74, rssi := none, latitude := none, longitude := none }

/-- A fresh body whose response omits the confidence field. -/
def sampleNoConf : SensorJson :=
  { name := none, model := none, last_seen := some 1000000000,
    confidence := none, rssi := none, latitude := some 37.96,
    longitude := some (-121.29) }

/-- A body whose response omits the last_seen field. -/
def sampleNoLastSeen : SensorJson :=
  { name := none, model := none, last_seen := none, confidence := some 90,
    rssi := none, latitude := none, longitude := none }

theorem STATUS_COLORS_offline : STATUS_COLORS ("offline".data) = [255, 0, 0, 160] := by
  decide

theorem STATUS_COLORS_low : STATUS_COLORS ("low_confidence".data) = [255, 255, 0, 160] := by
  decide

theorem STATUS_COLORS_online : STATUS_COLORS ("online".data) = [0, 255, 0, 160] := by
  decide

theorem status_priority_red (t : List Char) : status_priority ('❌' :: t) = 0 := by
  unfold status_priority
  rw [show "❌".data = ['❌'] from rfl]
  simp [List.isPrefixOf]

theorem status_priority_warn (t : List Char) : status_priority ('⚠' :: '️' :: t) = 1 := by
  unfold status_priority
  rw [show "❌".data = ['❌'] from rfl, show "⚠️".data = ['⚠', '️'] from rfl]
  simp [List.isPrefixOf]

theorem status_priority_green (t : List Char) : status_priority ('✅' :: t) = 2 := by
  unfold status_priority
  rw [show "❌".data = ['❌'] from rfl, show "⚠️".data = ['⚠', '️'] from rfl,
      show "✅".data = ['✅'] from rfl]
  simp [List.isPrefixOf]

theorem priority_offlineLabel (h : Int) : status_priority (offlineLabel h) = 0 := by
  rw [show offlineLabel h
      = '❌' :: (" Offline (".data ++ intStr h ++ " hr ago)".data) from rfl]
  exact status_priority_red _

theorem priority_lowConfidenceLabel (c : Int) :
    status_priority (lowConfidenceLabel c) = 1 := by
  rw [show lowConfidenceLabel c
      = '⚠' :: '️' :: (" Low Confidence (".data ++ intStr c ++ "%)".data) from rfl]
  exact status_priority_warn _

theorem priority_onlineLabel : status_priority onlineLabel = 2 := by
  decide

theorem priority_httpErrorLabel (code : Nat) :
    status_priority (httpErrorLabel code) = 0 := by
  have hbase : ∀ t : List Char,
      status_priority (("❌ HTTP ".data ++ natStr code) ++ t) = 0 := by
    intro t
    rw [show ("❌ HTTP ".data ++ natStr code) ++ t
        = '❌' :: ((" HTTP ".data ++ natStr code) ++ t) from rfl]
    exact status_priority_red _
  have hplain : status_priority ("❌ HTTP ".data ++ natStr code) = 0 := by
    rw [show "❌ HTTP ".data ++ natStr code
        = '❌' :: (" HTTP ".data ++ natStr code) from rfl]
    exact status_priority_red _
  unfold httpErrorLabel
  split <;> split <;> simp only [List.append_assoc] <;>
    first
      | exact hbase _
      | exact hplain

theorem priority_requestErrorLabel : status_priority requestErrorLabel = 0 := by
  decide

/-- A fresh body with confidence exactly 75 (on the threshold). -/
def sampleConf75 : SensorJson :=
  { name := none, model := none, last_seen := some 1000000000,
    confidence := some 75, rssi := none, latitude := none, longitude := none }

theorem get_success_offline (now idx : Int) (d : SensorJson)
    (h : now - d.last_seen.getD 0 > 600) :
    (get_sensor_data now idx (.success d)).status
      = offlineLabel ((now - d.last_seen.getD 0).fdiv 3600)
    ∧ (get_sensor_data now idx (.success d)).color = [255, 0, 0, 160] := by
  simp only [get_sensor_data, STALE_THRESHOLD_SECONDS, LOW_CONFIDENCE_THRESHOLD]
  rw [if_pos h]
  exact ⟨rfl, STATUS_COLORS_offline⟩

theorem get_success_lowconf (now idx : Int) (d : SensorJson)
    (h1 : now - d.last_seen.getD 0 ≤ 600) (h2 : d.confidence.getD 0 < 75) :
    (get_sensor_data now idx (.success d)).status
      = lowConfidenceLabel (d.confidence.getD 0)
    ∧ (get_sensor_data now idx (.success d)).color = [255, 255, 0, 160] := by
  simp only [get_sensor_data, STALE_THRESHOLD_SECONDS, LOW_CONFIDENCE_THRESHOLD]
  rw [if_neg (by omega), if_pos h2]
  exact ⟨rfl, STATUS_COLORS_low⟩

theorem get_success_online (now idx : Int) (d : SensorJson)
    (h1 : now - d.last_seen.getD 0 ≤ 600) (h2 : 75 ≤ d.confidence.getD 0) :
    (get_sensor_data now idx (.success d)).status = onlineLabel
    ∧ (get_sensor_data now idx (.success d)).color = [0, 255, 0, 160] := by
  simp only [get_sensor_data, STALE_THRESHOLD_SECONDS, LOW_CONFIDENCE_THRESHOLD]
  rw [if_neg (by omega), if_neg (by omega)]
  exact ⟨rfl, STATUS_COLORS_online⟩

/-- C1: for a successfully fetched record, `get_sensor_data` assigns exactly
one of three statuses by a first-match rule with strict inequalities: if the
age exceeds 600 seconds the status is the Offline label regardless of
confidence; else if confidence is under 75 the status is the Low Confidence
label; else it is the Online label. In particular an age of exactly 600
seconds is not Offline, and a confidence of exactly 75 is not Low
Confidence. -/
theorem C1_classifier_first_match (now idx : Int) (d : SensorJson) :
    (now - d.last_seen.getD 0 > 600 →
      (get_sensor_data now idx (.success d)).status
        = offlineLabel ((now - d.last_seen.getD 0).fdiv 3600))
    ∧ (now - d.last_seen.getD 0 ≤ 600 → d.confidence.getD 0 < 75 →
      (get_sensor_data now idx (.success d)).status
        = lowConfidenceLabel (d.confidence.getD 0))
    ∧ (now - d.last_seen.getD 0 ≤ 600 → 75 ≤ d.confidence.getD 0 →
      (get_sensor_data now idx (.success d)).status = onlineLabel)
    ∧ (now - d.last_seen.getD 0 = 600 →
      status_priority (get_sensor_data now idx (.success d)).status ≠ 0)
    ∧ (now - d.last_seen.getD 0 ≤ 600 → d.confidence.getD 0 = 75 →
      (get_sensor_data now idx (.success d)).status = onlineLabel) := by
  refine ⟨fun h => (get_success_offline now idx d h).1,
    fun h1 h2 => (get_success_lowconf now idx d h1 h2).1,
    fun h1 h2 => (get_success_online now idx d h1 h2).1,
    fun h => ?_,
    fun h1 h2 => (get_success_online now idx d h1 (by omega)).1⟩
  by_cases hc : d.confidence.getD 0 < 75
  · rw [(get_success_lowconf now idx d (by omega) hc).1, priority_lowConfidenceLabel]
    omega
  · rw [(get_success_online now idx d (by omega) (by omega)).1, priority_onlineLabel]
    omega

/-- Witness for C1 at concrete inputs: age 601 with confidence 80 gives the
Offline label; age 600 with confidence 74 gives the Low Confidence label; age
600 with confidence 80 is not in the red category; age 600 with confidence 75
gives the Online label. -/
theorem C1_classifier_first_match_witness :
    (get_sensor_data 1000000601 270898 (.success sampleBoundary)).status
      = offlineLabel ((1000000601 - sampleBoundary.last_seen.getD 0).fdiv 3600)
    ∧ (get_sensor_data 1000000600 270898 (.success sampleLowConf)).status
      = lowConfidenceLabel (sampleLowConf.confidence.getD 0)
    ∧ status_priority
        (get_sensor_data 1000000600 270898 (.success sampleBoundary)).status ≠ 0
    ∧ (get_sensor_data 1000000600 270898 (.success sampleConf75)).status
      = onlineLabel :=
  ⟨(C1_classifier_first_match 1000000601 270898 sampleBoundary).1 (by decide),
   (C1_classifier_first_match 1000000600 270898 sampleLowConf).2.1
     (by decide) (by decide),
   (C1_classifier_first_match 1000000600 270898 sampleBoundary).2.2.2.1
     (by decide),
   (C1_classifier_first_match 1000000600 270898 sampleConf75).2.2.2.2
     (by decide) (by decide)⟩

/-- C2: every per-sensor fetch failure yields a placeholder record rather
than aborting the batch: HTTP 403 carries the invalid-API-key message, HTTP
404 the not-found message, any other HTTP error status carries just its
numeric code, and a transport-level failure carries the generic request-error
label; all four carry the offline red RGBA. The batch always produces one
record per configured sensor, whatever the fetch outcomes. -/
theorem C2_failure_placeholders (now idx : Int) :
    ((get_sensor_data now idx (.httpError 403)).status
        = "❌ HTTP 403 (Invalid API Key?)".data
      ∧ (get_sensor_data now idx (.httpError 403)).color = [255, 0, 0, 160])
    ∧ ((get_sensor_data now idx (.httpError 404)).status
        = "❌ HTTP 404 (Not Found)".data
      ∧ (get_sensor_data now idx (.httpError 404)).color = [255, 0, 0, 160])
    ∧ (∀ code : Nat, code ≠ 403 → code ≠ 404 →
        (get_sensor_data now idx (.httpError code)).status
          = "❌ HTTP ".data ++ natStr code
        ∧ (get_sensor_data now idx (.httpError code)).color = [255, 0, 0, 160])
    ∧ ((get_sensor_data now idx .requestError).status = requestErrorLabel
      ∧ (get_sensor_data now idx .requestError).color = [255, 0, 0, 160])
    ∧ (∀ (fetch : Int → FetchResult) (s : AppState),
        (do_refresh now fetch s).df.length = SENSOR_INDICES.length) := by
  refine ⟨⟨?_, ?_⟩, ⟨?_, ?_⟩, ?_, ⟨?_, ?_⟩, ?_⟩
  · simp only [get_sensor_data]
    decide
  · simp only [get_sensor_data]
    exact STATUS_COLORS_offline
  · simp only [get_sensor_data]
    decide
  · simp only [get_sensor_data]
    exact STATUS_COLORS_offline
  · intro code h3 h4
    constructor
    · simp only [get_sensor_data]
      simp only [httpErrorLabel, h3, h4, if_false]
    · simp only [get_sensor_data]
      exact STATUS_COLORS_offline
  · simp only [get_sensor_data]
  · simp only [get_sensor_data]
    exact STATUS_COLORS_offline
  · intro fetch s
    simp [do_refresh]

/-- Witness for C2 at a concrete other HTTP status: a 500 response yields the
plain numeric-code label and the red color. -/
theorem C2_failure_placeholders_witness :
    (get_sensor_data 0 270898 (.httpError 500)).status
      = "❌ HTTP ".data ++ natStr 500
    ∧ (get_sensor_data 0 270898 (.httpError 500)).color = [255, 0, 0, 160] :=
  (C2_failure_placeholders 0 270898).2.2.1 500 (by decide) (by decide)

/-- C5: a record fetched successfully whose response omits the confidence
field is treated as confidence 0 for the threshold comparison, so whenever it
is not Offline (age at most 600 seconds) it is classified Low Confidence,
with 0 percent in the label. -/
theorem C5_missing_confidence_lowconf (now idx : Int) (d : SensorJson)
    (hconf : d.confidence = none) (hage : now - d.last_seen.getD 0 ≤ 600) :
    (get_sensor_data now idx (.success d)).status = lowConfidenceLabel 0 := by
  have hs := (get_success_lowconf now idx d hage (by rw [hconf]; decide)).1
  rw [hs, hconf]
  rfl

/-- Witness for C5: at clock 1000000600, a body last seen at 1000000000 with
no confidence field gets the Low Confidence label with 0 percent. -/
theorem C5_missing_confidence_lowconf_witness :
    (get_sensor_data 1000000600 155503 (.success sampleNoConf)).status
      = lowConfidenceLabel 0 :=
  C5_missing_confidence_lowconf 1000000600 155503 sampleNoConf rfl (by decide)

/-- C9: a record fetched successfully whose response omits the last_seen
field defaults it to 0, so the age equals the clock value itself; for any
clock value over 600 the record is classified Offline with the standard
Offline label carrying floor(now / 3600) elapsed hours and the red color, and
no distinct never-seen or unknown label is produced. -/
theorem C9_missing_last_seen_offline (now idx : Int) (d : SensorJson)
    (hls : d.last_seen = none) (hnow : now > 600) :
    (get_sensor_data now idx (.success d)).status = offlineLabel (now.fdiv 3600)
    ∧ (get_sensor_data now idx (.success d)).color = [255, 0, 0, 160] := by
  have h : now - d.last_seen.getD 0 > 600 := by
    rw [hls]
    simpa using hnow
  obtain ⟨hs, hc⟩ := get_success_offline now idx d h
  rw [hls] at hs
  simp only [Option.getD_none, sub_zero] at hs
  exact ⟨hs, hc⟩

/-- Witness for C9: at clock 1700000000 a body with no last_seen field gets
the Offline label with 472222 hours and the red color. -/
theorem C9_missing_last_seen_offline_witness :
    (get_sensor_data 1700000000 155503 (.success sampleNoLastSeen)).status
      = offlineLabel ((1700000000 : Int).fdiv 3600)
    ∧ (get_sensor_data 1700000000 155503 (.success sampleNoLastSeen)).color
      = [255, 0, 0, 160] :=
  C9_missing_last_seen_offline 1700000000 155503 sampleNoLastSeen rfl (by decide)

theorem get_sensor_data_priority_color (now idx : Int) (res : FetchResult) :
    (status_priority (get_sensor_data now idx res).status = 0
      ∧ (get_sensor_data now idx res).color = [255, 0, 0, 160])
    ∨ (status_priority (get_sensor_data now idx res).status = 1
      ∧ (get_sensor_data now idx res).color = [255, 255, 0, 160])
    ∨ (status_priority (get_sensor_data now idx res).status = 2
      ∧ (get_sensor_data now idx res).color = [0, 255, 0, 160]) := by
  cases res with
  | success d =>
      by_cases h1 : now - d.last_seen.getD 0 > 600
      · obtain ⟨hs, hc⟩ := get_success_offline now idx d h1
        exact Or.inl ⟨by rw [hs]; exact priority_offlineLabel _, hc⟩
      · by_cases h2 : d.confidence.getD 0 < 75
        · obtain ⟨hs, hc⟩ := get_success_lowconf now idx d (by omega) h2
          exact Or.inr (Or.inl ⟨by rw [hs]; exact priority_lowConfidenceLabel _, hc⟩)
        · obtain ⟨hs, hc⟩ := get_success_online now idx d (by omega) (by omega)
          exact Or.inr (Or.inr ⟨by rw [hs]; exact priority_onlineLabel, hc⟩)
  | httpError code =>
      refine Or.inl ⟨?_, ?_⟩
      · simp only [get_sensor_data]
        exact priority_httpErrorLabel code
      · simp only [get_sensor_data]
        exact STATUS_COLORS_offline
  | requestError =>
      refine Or.inl ⟨?_, ?_⟩
      · simp only [get_sensor_data]
        exact priority_requestErrorLabel
      · simp only [get_sensor_data]
        exact STATUS_COLORS_offline

/-- C4: every record produced by `get_sensor_data`, on success or failure,
carries one status and one color; the status always falls in one of the
three health categories (its sort priority is never the unmatched value 3),
the color is exactly the category-to-color map of the spec applied to the
status category (so fetch-error records are red, indistinguishable from
Offline), and any two records whose statuses fall in the same category carry
the same color. -/
theorem C4_color_function_of_category (now now2 idx idx2 : Int)
    (res res2 : FetchResult) :
    status_priority (get_sensor_data now idx res).status ≠ 3
    ∧ (get_sensor_data now idx res).color
        = spec_colorOfCategory (status_priority (get_sensor_data now idx res).status)
    ∧ (status_priority (get_sensor_data now idx res).status
        = status_priority (get_sensor_data now2 idx2 res2).status →
      (get_sensor_data now idx res).color
        = (get_sensor_data now2 idx2 res2).color) := by
  rcases get_sensor_data_priority_color now idx res with
    ⟨hp, hc⟩ | ⟨hp, hc⟩ | ⟨hp, hc⟩ <;>
    rcases get_sensor_data_priority_color now2 idx2 res2 with
      ⟨hp2, hc2⟩ | ⟨hp2, hc2⟩ | ⟨hp2, hc2⟩ <;>
    refine ⟨by rw [hp]; decide, by rw [hp, hc]; rfl, fun heq => ?_⟩ <;>
    rw [hp, hp2] at heq <;>
    first
      | exact absurd heq (by decide)
      | rw [hc, hc2]

/-- Witness for C4: a 500 fetch error and a stale success record fall in the
same red category, so the theorem gives them the same color. -/
theorem C4_color_function_of_category_witness :
    status_priority (get_sensor_data 0 270898 (.httpError 500)).status ≠ 3
    ∧ (get_sensor_data 0 270898 (.httpError 500)).color
        = spec_colorOfCategory
            (status_priority (get_sensor_data 0 270898 (.httpError 500)).status)
    ∧ (get_sensor_data 0 270898 (.httpError 500)).color
        = (get_sensor_data 1000000601 155503 (.success sampleBoundary)).color := by
  obtain ⟨h1, h2, h3⟩ := C4_color_function_of_category 0 1000000601 270898 155503
    (.httpError 500) (.success sampleBoundary)
  exact ⟨h1, h2, h3 (by decide)⟩

/-- C3: the table sort orders the batch by ascending status priority: the
sorted list is pairwise nondecreasing in priority and is a permutation of the
batch, and the priorities place every Offline- and fetch-error-labeled record
(priority 0) before every Low Confidence record (priority 1), every Low
Confidence record before every Online record (priority 2), and any unmatched
status (priority 3) after all of them. -/
theorem C3_sort_by_severity (rs : List SensorRecord) :
    (sortByPriority rs).Pairwise
      (fun a b => status_priority a.status ≤ status_priority b.status)
    ∧ (sortByPriority rs).Perm rs
    ∧ (∀ h : Int, status_priority (offlineLabel h) = 0)
    ∧ (∀ code : Nat, status_priority (httpErrorLabel code) = 0)
    ∧ status_priority requestErrorLabel = 0
    ∧ (∀ c : Int, status_priority (lowConfidenceLabel c) = 1)
    ∧ status_priority onlineLabel = 2 := by
  refine ⟨?_, ?_, priority_offlineLabel, priority_httpErrorLabel,
    priority_requestErrorLabel, priority_lowConfidenceLabel, priority_onlineLabel⟩
  · unfold sortByPriority
    refine List.Pairwise.imp ?_ (List.sorted_mergeSort ?_ ?_ rs)
    · intro a b hab
      simpa using hab
    · intro a b c hab hbc
      simp only [decide_eq_true_eq] at *
      omega
    · intro a b
      simp only [Bool.or_eq_true, decide_eq_true_eq]
      omega
  · unfold sortByPriority
    exact List.mergeSort_perm rs _

/-- The initial session state: empty table, empty map, default camera. -/
def emptyState : AppState :=
  { df := [], df_map := [], view_state := DEFAULT_VIEW }

/-- C6: every record of a refresh is in the table-destined set `df`; a record
missing latitude or longitude is absent from the map-destined set `df_map`,
while a record carrying both coordinates is in `df_map` as well. -/
theorem C6_map_excludes_missing_coordinates (now : Int)
    (fetch : Int → FetchResult) (s : AppState) (r : SensorRecord)
    (hr : r ∈ (do_refresh now fetch s).df) :
    ((r.latitude = none ∨ r.longitude = none) →
      r ∉ (do_refresh now fetch s).df_map)
    ∧ (r.latitude ≠ none → r.longitude ≠ none →
      r ∈ (do_refresh now fetch s).df_map) := by
  simp only [do_refresh] at hr ⊢
  constructor
  · intro hmiss hmem
    rw [List.mem_filter] at hmem
    have hpred := hmem.2
    simp only [Bool.and_eq_true, Option.isSome_iff_ne_none] at hpred
    rcases hmiss with h | h
    · exact hpred.1 h
    · exact hpred.2 h
  · intro h1 h2
    rw [List.mem_filter]
    refine ⟨hr, ?_⟩
    simp only [Bool.and_eq_true, Option.isSome_iff_ne_none]
    exact ⟨h1, h2⟩

/-- Witness for C6: with every fetch failing, the placeholder record (which
has no coordinates) is in the table set but not in the map set; with every
fetch returning a located body, the record is in the map set. -/
theorem C6_map_excludes_missing_coordinates_witness :
    (get_sensor_data 0 270898 .requestError)
      ∉ (do_refresh 0 (fun _ => .requestError) emptyState).df_map
    ∧ (get_sensor_data 0 270898 (.success sampleFresh))
      ∈ (do_refresh 0 (fun _ => .success sampleFresh) emptyState).df_map :=
  ⟨(C6_map_excludes_missing_coordinates 0 (fun _ => .requestError) emptyState
      (get_sensor_data 0 270898 .requestError)
      (by simp only [do_refresh]
          exact List.mem_map_of_mem _ (by decide))).1 (Or.inl rfl),
   (C6_map_excludes_missing_coordinates 0 (fun _ => .success sampleFresh) emptyState
      (get_sensor_data 0 270898 (.success sampleFresh))
      (by simp only [do_refresh]
          exact List.mem_map_of_mem _ (by decide))).2
      (by decide) (by decide)⟩

/-- C10: `reset_view` sets the camera to exactly the fixed default (latitude
37.9577, longitude -121.2908, zoom 10, pitch 0) and changes nothing else in
the session state: the table and map result sets are unchanged; conversely, a
refresh leaves the camera unchanged. -/
theorem C10_reset_view_frame (s : AppState) (now : Int)
    (fetch : Int → FetchResult) :
    (reset_view s).view_state = DEFAULT_VIEW
    ∧ DEFAULT_VIEW.latitude = 37.9577
    ∧ DEFAULT_VIEW.longitude = -121.2908
    ∧ DEFAULT_VIEW.zoom = 10
    ∧ DEFAULT_VIEW.pitch = 0
    ∧ (reset_view s).df = s.df
    ∧ (reset_view s).df_map = s.df_map
    ∧ (do_refresh now fetch s).view_state = s.view_state :=
  ⟨rfl, rfl, rfl, rfl, rfl, rfl, rfl, rfl⟩

/-- C7 counterexample: `get_sensor_data` samples the clock inside the
function (line 59) instead of receiving it from its caller, so with the
caller-supplied sensor index and the entire HTTP response held fixed, two
invocations at different internal clock samples return different statuses:
the claim that the classification reads no hidden time source fails on the
code. -/
theorem C7_hidden_clock_counterexample :
    (get_sensor_data 1000000000 270898 (.success sampleFresh)).status
      ≠ (get_sensor_data 1000001000 270898 (.success sampleFresh)).status := by
  decide

/-- C7 amended: the classification decision is a deterministic function of
exactly the clock sample, last_seen and confidence: two invocations seeing
the same three values return the same status label and the same color,
whatever the sensor index and the other response fields; however, the clock
value is sampled internally by `get_sensor_data` via datetime.now rather than
passed in by the caller. -/
theorem C7_classification_deterministic (now idx1 idx2 : Int)
    (d1 d2 : SensorJson) (hls : d1.last_seen = d2.last_seen)
    (hconf : d1.confidence = d2.confidence) :
    (get_sensor_data now idx1 (.success d1)).status
      = (get_sensor_data now idx2 (.success d2)).status
    ∧ (get_sensor_data now idx1 (.success d1)).color
      = (get_sensor_data now idx2 (.success d2)).color := by
  by_cases h1 : now - d1.last_seen.getD 0 > 600
  · have h1' : now - d2.last_seen.getD 0 > 600 := by rw [← hls]; exact h1
    obtain ⟨s1, c1⟩ := get_success_offline now idx1 d1 h1
    obtain ⟨s2, c2⟩ := get_success_offline now idx2 d2 h1'
    rw [s1, s2, c1, c2, hls]
    exact ⟨rfl, rfl⟩
  · have h1' : now - d2.last_seen.getD 0 ≤ 600 := by rw [← hls]; omega
    by_cases h2 : d1.confidence.getD 0 < 75
    · have h2' : d2.confidence.getD 0 < 75 := by rw [← hconf]; exact h2
      obtain ⟨s1, c1⟩ := get_success_lowconf now idx1 d1 (by omega) h2
      obtain ⟨s2, c2⟩ := get_success_lowconf now idx2 d2 h1' h2'
      rw [s1, s2, c1, c2, hconf]
      exact ⟨rfl, rfl⟩
    · have h2' : 75 ≤ d2.confidence.getD 0 := by rw [← hconf]; omega
      obtain ⟨s1, c1⟩ := get_success_online now idx1 d1 (by omega) (by omega)
      obtain ⟨s2, c2⟩ := get_success_online now idx2 d2 h1' h2'
      rw [s1, s2, c1, c2]
      exact ⟨rfl, rfl⟩

/-- Witness for the amended C7: two bodies sharing last_seen and confidence
but differing in name, model, rssi and coordinates, fetched for different
sensor indices at the same clock sample, get the same status and color. -/
theorem C7_classification_deterministic_witness :
    (get_sensor_data 1000000000 270898 (.success sampleFresh)).status
      = (get_sensor_data 1000000000 155503 (.success sampleFreshRenamed)).status
    ∧ (get_sensor_data 1000000000 270898 (.success sampleFresh)).color
      = (get_sensor_data 1000000000 155503 (.success sampleFreshRenamed)).color :=
  C7_classification_deterministic 1000000000 270898 155503
    sampleFresh sampleFreshRenamed rfl rfl

/-- C8 counterexample: at clock 1000000600 with last_seen 1000000000 and
confidence 80 (age exactly 600 seconds) the classifier returns the Online
label, not Offline, and the status nowhere reads 1 hr ago. -/
theorem C8_boundary_counterexample :
    (get_sensor_data 1000000600 270898 (.success sampleBoundary)).status
      = onlineLabel
    ∧ ¬ (("Offline".data)
        <:+: (get_sensor_data 1000000600 270898 (.success sampleBoundary)).status)
    ∧ ¬ (("1 hr ago".data)
        <:+: (get_sensor_data 1000000600 270898 (.success sampleBoundary)).status) := by
  decide

/-- C8 amended: at the boundary input now 1000000600, last_seen 1000000000,
confidence 80 the classifier returns Online (age 600 is not over the strict
threshold); one second later (age 601, a clear Offline case) it returns the
Offline label whose elapsed-hours count floor(601 / 3600) is 0, so the label
reads 0 hr ago rather than 1 hr ago. -/
theorem C8_boundary_amended :
    (get_sensor_data 1000000600 270898 (.success sampleBoundary)).status
      = onlineLabel
    ∧ (get_sensor_data 1000000601 270898 (.success sampleBoundary)).status
      = offlineLabel 0
    ∧ ("0 hr ago".data) <:+: offlineLabel 0 := by
  decide
